import Mathlib

/-!
Shallow embedding of the hexbright flashlight-control library, from
src/libraries/hexbright/hexbright.h.  The repository snapshot ships only the
class header: the constants and the public interface below are taken directly
from hexbright.h, and every function body (absent from src) is modelled from
the specification, as noted on each definition.  Machine integers are modelled
as Int/Nat; C integer division is Int.tdiv (truncation toward zero).
-/

namespace hexbright

/-- Constant MAX_LEVEL from hexbright.h line 79: the top of the light scale. -/
def MAX_LEVEL : Int := 1000

/-- Constant MAX_LOW_LEVEL from hexbright.h line 80. -/
def MAX_LOW_LEVEL : Int := 500

/-- Constant CURRENT_LEVEL from hexbright.h line 81: the sentinel accepted as
the start argument of set_light. -/
def CURRENT_LEVEL : Int := -1

/-- Constant OVERHEAT_TEMPERATURE from hexbright.h line 72 (the DEBUG = 0
build). -/
def OVERHEAT_TEMPERATURE : Int := 320

/-- Modelled from the spec: clamping of commanded levels into [0, MAX_LEVEL]
(spec section 7: out-of-range commanded levels are silently clamped, not
rejected). -/
def clampLevel (x : Int) : Int := max 0 (min MAX_LEVEL x)

/-- Modelled from the spec: the Ramp record of spec section 3,
\x7bstart_level, end_level, duration\x7d; the absolute start time is abstracted
by sampling the ramp at an explicit elapsed time. -/
structure Ramp where
  start_level : Int
  end_level : Int
  duration : Int

/-- Modelled from the spec: body of set_light (declared hexbright.h line 127)
per spec section 4.1: a start equal to the CURRENT_LEVEL sentinel is replaced
by the ramp value currently being produced (passed here as current, not the
clamped safe value); any other endpoint is silently clamped to [0, MAX_LEVEL]
(spec section 7); the new ramp replaces the old one. -/
def set_light (current start_level end_level time : Int) : Ramp :=
  { start_level := if start_level = CURRENT_LEVEL then current else clampLevel start_level
    end_level := clampLevel end_level
    duration := time }

/-- Modelled from the spec: body of get_light_level (declared hexbright.h
line 129) per the Ramp invariant of spec section 3: the linear interpolation
of start_level to end_level over elapsed/duration, clamped to end_level once
elapsed is at least duration.  Division is C truncating division. -/
def get_light_level (r : Ramp) (elapsed : Int) : Int :=
  if r.duration ≤ elapsed then r.end_level
  else r.start_level + Int.tdiv ((r.end_level - r.start_level) * elapsed) r.duration

/-- Modelled from the spec: the fixed per-tick step of the thermal clamp of
spec section 4.1 (a fixed decrement, recovered by the same step; the numeric
value is not given by the spec and is taken as 1). -/
def OVERHEAT_STEP : Int := 1

/-- Modelled from the spec: body of overheat_protection (declared hexbright.h
line 268) per spec section 4.1: each tick, if the measured temperature exceeds
OVERHEAT_TEMPERATURE the output ceiling drops by OVERHEAT_STEP, otherwise it
recovers by the same step; the ceiling is bounded to [0, MAX_LEVEL]. -/
def overheat_protection (temperature ceiling : Int) : Int :=
  if OVERHEAT_TEMPERATURE < temperature then max 0 (ceiling - OVERHEAT_STEP)
  else min MAX_LEVEL (ceiling + OVERHEAT_STEP)

/-- Modelled from the spec: the thermal ceiling reached from an initial
ceiling after a run of per-tick temperature measurements (one
overheat_protection step per tick, spec section 4.6 order). -/
def runThermal (ceiling : Int) (temps : List Int) : Int :=
  temps.foldl (fun c t => overheat_protection t c) ceiling

/-- Modelled from the spec: body of get_safe_light_level (declared hexbright.h
line 131) per spec section 4.1: the ramp level reduced by the thermal ceiling;
this is the value written to the physical driver. -/
def get_safe_light_level (ceiling level : Int) : Int :=
  if ceiling < level then ceiling else level

/-- Charge-state constant CHARGING from hexbright.h line 95. -/
def CHARGING : Nat := 1

/-- Charge-state constant BATTERY from hexbright.h line 96. -/
def BATTERY : Nat := 7

/-- Charge-state constant CHARGED from hexbright.h line 97. -/
def CHARGED : Nat := 3

/-- Modelled from the spec: a raw charge sample is one of the three charge
constants (spec section 3, ChargeState). -/
def isChargeState (s : Nat) : Prop := s = CHARGING ∨ s = CHARGED ∨ s = BATTERY

instance (s : Nat) : Decidable (isChargeState s) := by
  unfold isChargeState; infer_instance

/-- Modelled from the spec: body of get_definite_charge_state (declared
hexbright.h line 172; body absent from src).  The two delay-separated raw
samples are combined so that BATTERY is returned only when both samples agree
on it (spec section 3 and the hexbright.h line 166 comment), which with the
charge constants of hexbright.h (CHARGING = 1, CHARGED = 3, BATTERY = 7) is
their bitwise AND. -/
def get_definite_charge_state (sample1 sample2 : Nat) : Nat :=
  sample1 &&& sample2

/-- Modelled from the spec: the ButtonState record of spec section 3: whether
the button is down, the press duration in update ticks (frozen at release),
and whether a release happened at the last tick. -/
structure ButtonState where
  pressed : Bool
  held : Nat
  released : Bool

/-- Modelled from the spec: the button state before any tick. -/
def initButton : ButtonState := { pressed := false, held := 0, released := false }

/-- Modelled from the spec: body of read_button (declared hexbright.h
line 281) per spec section 4.4: once per tick the raw pin sample advances the
state; the held counter grows while the button is down, restarts when a press
begins, and freezes at release. -/
def read_button (s : ButtonState) (raw : Bool) : ButtonState :=
  if raw then
    { pressed := true, held := if s.pressed then s.held + 1 else 1, released := false }
  else
    { pressed := false, held := s.held, released := s.pressed }

/-- Modelled from the spec: a run of ticks over a list of raw pin samples. -/
def runButton (s : ButtonState) (raws : List Bool) : ButtonState :=
  raws.foldl read_button s

/-- Modelled from the spec: body of button_held (declared hexbright.h
line 136): the duration, in update ticks, the button has been down, kept
after release. -/
def button_held (s : ButtonState) : Nat := s.held

/-- Modelled from the spec: body of button_released (declared hexbright.h
line 138): the button was just released. -/
def button_released (s : ButtonState) : Bool := s.released

/-- The rear-LED channel identifiers RLED and GLED, hexbright.h lines 87
and 88. -/
inductive Channel where
  | RLED
  | GLED
deriving DecidableEq

/-- Modelled from the spec: body of flip_color (declared hexbright.h
line 154): swaps the two channel identifiers. -/
def flip_color (color : Channel) : Channel :=
  match color with
  | .RLED => .GLED
  | .GLED => .RLED

/-- The indicator states LED_OFF, LED_WAIT and LED_ON, hexbright.h lines 90
to 92. -/
inductive LedState where
  | LED_OFF
  | LED_WAIT
  | LED_ON
deriving DecidableEq

/-- Modelled from the spec: the IndicatorChannel record of spec section 3:
current state, the absolute tick-time deadlines of the ON and WAIT phases,
and the commanded brightness. -/
structure LedChannel where
  state : LedState
  on_deadline : Nat
  wait_deadline : Nat
  brightness : Nat

/-- Modelled from the spec: arming one indicator channel (spec section 4.2):
state ON if on_time is positive, WAIT otherwise, with deadlines computed from
the current tick time. -/
def arm_led (now on_time wait_time brightness : Nat) : LedChannel :=
  if 0 < on_time then
    { state := .LED_ON, on_deadline := now + on_time,
      wait_deadline := now + on_time + wait_time, brightness := brightness }
  else
    { state := .LED_WAIT, on_deadline := now, wait_deadline := now + wait_time,
      brightness := brightness }

/-- Modelled from the spec: the two independent indicator channels (spec
section 4.2: channels never interact). -/
def Leds : Type := Channel → LedChannel

/-- Modelled from the spec: both channels off before any set_led call. -/
def initLeds : Leds :=
  fun _ => { state := .LED_OFF, on_deadline := 0, wait_deadline := 0, brightness := 0 }

/-- Modelled from the spec: body of set_led (declared hexbright.h line 147):
arms the addressed channel from the current tick time, leaving the other
channel untouched. -/
def set_led (l : Leds) (led : Channel) (now on_time wait_time brightness : Nat) : Leds :=
  fun d => if d = led then arm_led now on_time wait_time brightness else l d

/-- Modelled from the spec: the per-tick decay of one indicator channel
evaluated at tick time now (spec section 3: ON transitions to WAIT at
on_deadline and WAIT transitions to OFF at wait_deadline). -/
def adjust_led (now : Nat) (c : LedChannel) : LedChannel :=
  match c.state with
  | .LED_ON =>
      if c.wait_deadline ≤ now then { c with state := .LED_OFF }
      else if c.on_deadline ≤ now then { c with state := .LED_WAIT }
      else c
  | .LED_WAIT => if c.wait_deadline ≤ now then { c with state := .LED_OFF } else c
  | .LED_OFF => c

/-- Modelled from the spec: the per-tick decay of both channels (part of
adjust_leds, declared hexbright.h line 277). -/
def adjust_leds (now : Nat) (l : Leds) : Leds :=
  fun d => adjust_led now (l d)

/-- Modelled from the spec: one channel ticked through times start+1 up to
start+k, one adjustment per scheduler tick. -/
def runLed (c : LedChannel) (start : Nat) : Nat → LedChannel
  | 0 => c
  | k + 1 => adjust_led (start + k + 1) (runLed c start k)

/-- Modelled from the spec: both channels ticked through times start+1 up to
start+k. -/
def runLeds (l : Leds) (start : Nat) : Nat → Leds
  | 0 => l
  | k + 1 => adjust_leds (start + k + 1) (runLeds l start k)

/-- Modelled from the spec: body of get_led_state (declared hexbright.h
line 151): a pure read of the addressed channel state. -/
def get_led_state (l : Leds) (led : Channel) : LedState :=
  (l led).state

/-- The indicator phase an armed channel is in after k ticks: ON strictly
before on_time, WAIT strictly before on_time + wait_time, then OFF — except
that at the arming instant itself (k = 0) a channel armed with
on_time = wait_time = 0 still reads WAIT, its armed state. -/
def ledPhase (on_time wait_time k : Nat) : LedState :=
  if k < on_time then .LED_ON
  else if k < on_time + wait_time then .LED_WAIT
  else if k = 0 then .LED_WAIT
  else .LED_OFF

/-- Modelled from the spec: the decimal digits of n, least significant first,
by the repeated modulus-10 loop of spec section 4.3. -/
def digitsLSD (n : Nat) : List Nat :=
  if h : n = 0 then [] else n % 10 :: digitsLSD (n / 10)
decreasing_by exact Nat.div_lt_self (Nat.pos_of_ne_zero h) (by decide)

/-- Modelled from the spec: the decimal digits of n, most significant first,
the order in which print_number renders them. -/
def digitsMSD (n : Nat) : List Nat := (digitsLSD n).reverse

/-- The largest printable magnitude, hexbright.h line 184. -/
def PRINT_LIMIT : Nat := 999999999

/-- Modelled from the spec: the PrintJob record of spec section 3: the sign
and the decimal digits (most significant first) to render. -/
structure PrintJob where
  negative : Bool
  digits : List Nat

/-- Modelled from the spec: body of print_number (declared hexbright.h
line 186) per spec section 4.3: starts a job for n when its magnitude is
printable (at most PRINT_LIMIT, the left-most digit being reserved). -/
def print_number (n : Int) : Option PrintJob :=
  if n.natAbs ≤ PRINT_LIMIT then
    some { negative := decide (n < 0), digits := digitsMSD n.natAbs }
  else none

/-- Modelled from the spec: the channel rendering the digit at a given
position, alternating per digit position (spec section 4.3), starting from
RLED as in the hexbright.h line 183 example. -/
def channelFor (position : Nat) : Channel :=
  if position % 2 = 0 then .RLED else .GLED

/-- Modelled from the spec: one rendered flash: the long leading sign flash,
or a short flash on a channel. -/
inductive Flash where
  | long
  | short : Channel → Flash
deriving DecidableEq

/-- Modelled from the spec (section 4.3): the flash sequence of a print job:
one leading long flash when negative, then each digit rendered as that many
short flashes on its alternating channel. -/
def jobFlashes (j : PrintJob) : List Flash :=
  (if j.negative then [Flash.long] else []) ++
    j.digits.enum.flatMap fun p => List.replicate p.2 (Flash.short (channelFor p.1))

/-- Modelled from the spec: the encoder state while a print is in progress:
the flashes still to emit. -/
structure PrintState where
  pending : List Flash

/-- Modelled from the spec: one step of update_number (declared hexbright.h
line 270): the next flash of the job is emitted. -/
def printStep (s : PrintState) : PrintState := { pending := s.pending.tail }

/-- Modelled from the spec: the encoder state k emission steps after
print_number armed job j. -/
def runPrint (j : PrintJob) : Nat → PrintState
  | 0 => { pending := jobFlashes j }
  | k + 1 => printStep (runPrint j k)

/-- Modelled from the spec: body of printing_number (declared hexbright.h
line 188): a job is active while flashes remain to be emitted. -/
def printing_number (s : PrintState) : Bool := !s.pending.isEmpty

/-! ### Helper lemmas -/

lemma clampLevel_bounds (x : Int) : 0 ≤ clampLevel x ∧ clampLevel x ≤ MAX_LEVEL := by
  unfold clampLevel MAX_LEVEL
  omega

lemma clampLevel_eq_of_mem {x : Int} (h0 : 0 ≤ x) (h1 : x ≤ MAX_LEVEL) : clampLevel x = x := by
  unfold MAX_LEVEL at h1
  unfold clampLevel MAX_LEVEL
  omega

lemma set_light_eq_of_mem {current s e d : Int} (hs0 : 0 ≤ s) (hs1 : s ≤ MAX_LEVEL)
    (he0 : 0 ≤ e) (he1 : e ≤ MAX_LEVEL) :
    set_light current s e d = { start_level := s, end_level := e, duration := d } := by
  unfold set_light
  rw [if_neg (by unfold CURRENT_LEVEL; omega), clampLevel_eq_of_mem hs0 hs1,
    clampLevel_eq_of_mem he0 he1]

lemma tdiv_interp_bounds {a t d : Int} (ha : 0 ≤ a) (ht : 0 ≤ t) (htd : t ≤ d) (hd : 0 < d) :
    0 ≤ Int.tdiv (a * t) d ∧ Int.tdiv (a * t) d ≤ a := by
  rw [Int.tdiv_eq_ediv (mul_nonneg ha ht) hd.le]
  refine ⟨Int.ediv_nonneg (mul_nonneg ha ht) hd.le, ?_⟩
  calc a * t / d ≤ a * d / d := Int.ediv_le_ediv hd (mul_le_mul_of_nonneg_left htd ha)
    _ = a := Int.mul_ediv_cancel a hd.ne'

lemma get_light_level_range {r : Ramp} (h0 : 0 ≤ r.start_level) (h1 : r.start_level ≤ MAX_LEVEL)
    (h2 : 0 ≤ r.end_level) (h3 : r.end_level ≤ MAX_LEVEL) {t : Int} (ht : 0 ≤ t) :
    0 ≤ get_light_level r t ∧ get_light_level r t ≤ MAX_LEVEL := by
  unfold MAX_LEVEL at *
  unfold get_light_level
  split
  · exact ⟨h2, h3⟩
  · next hlt =>
    have hd : 0 < r.duration := by omega
    rcases le_or_lt r.start_level r.end_level with hse | hse
    · have hb := tdiv_interp_bounds (a := r.end_level - r.start_level)
        (by omega) ht (by omega) hd
      omega
    · have hrw : (r.end_level - r.start_level) * t = -((r.start_level - r.end_level) * t) := by
        ring
      rw [hrw, Int.neg_tdiv]
      have hb := tdiv_interp_bounds (a := r.start_level - r.end_level)
        (by omega) ht (by omega) hd
      omega

lemma overheat_protection_bounds (temp : Int) {c : Int} (h0 : 0 ≤ c) (h1 : c ≤ MAX_LEVEL) :
    0 ≤ overheat_protection temp c ∧ overheat_protection temp c ≤ MAX_LEVEL := by
  unfold MAX_LEVEL at h1
  unfold overheat_protection OVERHEAT_STEP MAX_LEVEL
  split <;> omega

lemma runThermal_cons (c t : Int) (ts : List Int) :
    runThermal c (t :: ts) = runThermal (overheat_protection t c) ts := rfl

lemma runThermal_bounds {c : Int} (temps : List Int) (h0 : 0 ≤ c) (h1 : c ≤ MAX_LEVEL) :
    0 ≤ runThermal c temps ∧ runThermal c temps ≤ MAX_LEVEL := by
  induction temps generalizing c with
  | nil => exact ⟨h0, h1⟩
  | cons t ts ih =>
    rw [runThermal_cons]
    have hb := overheat_protection_bounds t h0 h1
    exact ih hb.1 hb.2

lemma runThermal_hot {c : Int} (temps : List Int) (h0 : 0 ≤ c)
    (hhot : ∀ x ∈ temps, OVERHEAT_TEMPERATURE < x) :
    runThermal c temps = max 0 (c - (temps.length : Int) * OVERHEAT_STEP) := by
  induction temps generalizing c with
  | nil => simp [runThermal, OVERHEAT_STEP]; omega
  | cons t ts ih =>
    rw [runThermal_cons]
    have hstep : overheat_protection t c = max 0 (c - OVERHEAT_STEP) := by
      unfold overheat_protection
      rw [if_pos (hhot t (List.mem_cons_self t ts))]
    rw [hstep, ih (by unfold OVERHEAT_STEP; omega) (fun x hx => hhot x (List.mem_cons_of_mem t hx))]
    unfold OVERHEAT_STEP
    simp only [List.length_cons]
    push_cast
    omega

lemma runThermal_cool {c : Int} (temps : List Int) (h1 : c ≤ MAX_LEVEL)
    (hcool : ∀ x ∈ temps, x < OVERHEAT_TEMPERATURE) :
    runThermal c temps = min MAX_LEVEL (c + (temps.length : Int) * OVERHEAT_STEP) := by
  induction temps generalizing c with
  | nil =>
    unfold MAX_LEVEL at *
    simp [runThermal, OVERHEAT_STEP]
    omega
  | cons t ts ih =>
    rw [runThermal_cons]
    have hstep : overheat_protection t c = min MAX_LEVEL (c + OVERHEAT_STEP) := by
      unfold overheat_protection
      rw [if_neg (by have := hcool t (List.mem_cons_self t ts); omega)]
    rw [hstep, ih (by unfold MAX_LEVEL at *; unfold OVERHEAT_STEP; omega)
      (fun x hx => hcool x (List.mem_cons_of_mem t hx))]
    unfold OVERHEAT_STEP MAX_LEVEL at *
    simp only [List.length_cons]
    push_cast
    omega

lemma get_safe_light_level_le (ceiling level : Int) :
    get_safe_light_level ceiling level ≤ level := by
  unfold get_safe_light_level
  split <;> omega

lemma tdiv_half_bounds (a h : Int) (hh : 0 < h) :
    -1 ≤ 2 * Int.tdiv (a * h) (2 * h) - a ∧ 2 * Int.tdiv (a * h) (2 * h) - a ≤ 1 := by
  rcases le_or_lt 0 a with ha | ha
  · rw [Int.tdiv_eq_ediv (mul_nonneg ha hh.le) (by omega),
      Int.mul_ediv_mul_of_pos_left a 2 hh]
    omega
  · have hrw : a * h = -((-a) * h) := by ring
    rw [hrw, Int.neg_tdiv, Int.tdiv_eq_ediv (mul_nonneg (by omega) hh.le) (by omega),
      Int.mul_ediv_mul_of_pos_left (-a) 2 hh]
    omega

lemma runButton_cons (s : ButtonState) (r : Bool) (rs : List Bool) :
    runButton s (r :: rs) = runButton (read_button s r) rs := rfl

lemma read_button_true_of_pressed {s : ButtonState} (hp : s.pressed = true) :
    read_button s true = { pressed := true, held := s.held + 1, released := false } := by
  simp [read_button, hp]

lemma read_button_false (s : ButtonState) :
    read_button s false = { pressed := false, held := s.held, released := s.pressed } := by
  simp [read_button]

lemma runButton_trues {s : ButtonState} (hp : s.pressed = true) (j : Nat) :
    (runButton s (List.replicate j true)).held = s.held + j ∧
    (runButton s (List.replicate j true)).pressed = true := by
  induction j generalizing s with
  | zero => exact ⟨rfl, hp⟩
  | succ j ih =>
    rw [List.replicate_succ, runButton_cons, read_button_true_of_pressed hp]
    have h := ih (s := { pressed := true, held := s.held + 1, released := false }) rfl
    refine ⟨?_, h.2⟩
    rw [h.1]
    show s.held + 1 + j = s.held + (j + 1)
    omega

lemma runButton_falses (s : ButtonState) (m : Nat) :
    (runButton s (List.replicate m false)).held = s.held := by
  induction m generalizing s with
  | zero => rfl
  | succ m ih =>
    rw [List.replicate_succ, runButton_cons, read_button_false]
    exact ih { pressed := false, held := s.held, released := s.pressed }

lemma ledPhase_spec (on_time wait_time k : Nat) :
    (ledPhase on_time wait_time k = .LED_ON ↔ k < on_time) ∧
    (ledPhase on_time wait_time k = .LED_WAIT ↔
      (on_time ≤ k ∧ k < on_time + wait_time) ∨ (k = 0 ∧ on_time = 0 ∧ wait_time = 0)) ∧
    (ledPhase on_time wait_time k = .LED_OFF ↔ on_time + wait_time ≤ k ∧ 0 < k) := by
  unfold ledPhase
  split_ifs <;> simp <;> omega

lemma adjust_led_fields (now : Nat) (c : LedChannel) :
    (adjust_led now c).on_deadline = c.on_deadline ∧
    (adjust_led now c).wait_deadline = c.wait_deadline ∧
    (adjust_led now c).brightness = c.brightness := by
  unfold adjust_led
  rcases c with ⟨st, od, wd, b⟩
  cases st
  · exact ⟨rfl, rfl, rfl⟩
  · dsimp
    split_ifs <;> simp
  · dsimp
    split_ifs <;> simp

lemma runLed_fields (c : LedChannel) (start k : Nat) :
    (runLed c start k).on_deadline = c.on_deadline ∧
    (runLed c start k).wait_deadline = c.wait_deadline := by
  induction k with
  | zero => exact ⟨rfl, rfl⟩
  | succ k ih =>
    have h := adjust_led_fields (start + k + 1) (runLed c start k)
    exact ⟨h.1.trans ih.1, h.2.1.trans ih.2⟩

lemma arm_led_wait_deadline (now on_time wait_time brightness : Nat) :
    (arm_led now on_time wait_time brightness).wait_deadline = now + on_time + wait_time := by
  unfold arm_led
  split_ifs with h
  · rfl
  · dsimp
    omega

lemma arm_led_on_deadline_pos {on_time : Nat} (now wait_time brightness : Nat)
    (h : 0 < on_time) :
    (arm_led now on_time wait_time brightness).on_deadline = now + on_time := by
  unfold arm_led
  rw [if_pos h]

lemma runLed_state (now on_time wait_time brightness : Nat) (k : Nat) :
    (runLed (arm_led now on_time wait_time brightness) now k).state =
      ledPhase on_time wait_time k := by
  induction k with
  | zero =>
    rcases Nat.eq_zero_or_pos on_time with h0 | hpos
    · subst h0
      show (arm_led now 0 wait_time brightness).state = _
      unfold arm_led
      rw [if_neg (by omega)]
      exact (((ledPhase_spec 0 wait_time 0).2.1).mpr (by omega)).symm
    · show (arm_led now on_time wait_time brightness).state = _
      unfold arm_led
      rw [if_pos hpos]
      exact (((ledPhase_spec on_time wait_time 0).1).mpr hpos).symm
  | succ k ih =>
    show (adjust_led (now + k + 1) (runLed (arm_led now on_time wait_time brightness) now k)).state
      = ledPhase on_time wait_time (k + 1)
    have hf := runLed_fields (arm_led now on_time wait_time brightness) now k
    rcases hc : runLed (arm_led now on_time wait_time brightness) now k with ⟨st, od, wd, b⟩
    rw [hc] at ih hf
    rw [arm_led_wait_deadline] at hf
    dsimp at ih hf
    obtain ⟨hod, hwd⟩ := hf
    subst hwd
    unfold adjust_led
    cases st with
    | LED_ON =>
      have hk : k < on_time := ((ledPhase_spec on_time wait_time k).1).mp ih.symm
      have hodv : od = now + on_time := by
        rw [hod, arm_led_on_deadline_pos now wait_time brightness (by omega)]
      subst hodv
      dsimp only
      split_ifs with h1 h2
      · exact (((ledPhase_spec on_time wait_time (k + 1)).2.2).mpr (by omega)).symm
      · exact (((ledPhase_spec on_time wait_time (k + 1)).2.1).mpr (by omega)).symm
      · exact (((ledPhase_spec on_time wait_time (k + 1)).1).mpr (by omega)).symm
    | LED_WAIT =>
      have hk := ((ledPhase_spec on_time wait_time k).2.1).mp ih.symm
      dsimp only
      split_ifs with h1
      · exact (((ledPhase_spec on_time wait_time (k + 1)).2.2).mpr (by omega)).symm
      · exact (((ledPhase_spec on_time wait_time (k + 1)).2.1).mpr (by omega)).symm
    | LED_OFF =>
      have hk := ((ledPhase_spec on_time wait_time k).2.2).mp ih.symm
      dsimp only
      exact (((ledPhase_spec on_time wait_time (k + 1)).2.2).mpr (by omega)).symm

lemma runLeds_apply (l : Leds) (start k : Nat) (d : Channel) :
    runLeds l start k d = runLed (l d) start k := by
  induction k with
  | zero => rfl
  | succ k ih =>
    show adjust_led (start + k + 1) (runLeds l start k d) = _
    rw [ih]
    rfl

lemma set_led_self (l : Leds) (led : Channel) (now on_time wait_time brightness : Nat) :
    set_led l led now on_time wait_time brightness led = arm_led now on_time wait_time brightness := by
  unfold set_led
  rw [if_pos rfl]

lemma digitsLSD_lt (n : Nat) : ∀ d ∈ digitsLSD n, d < 10 := by
  induction n using Nat.strong_induction_on with
  | _ n ih =>
    rw [digitsLSD]
    split
    · simp
    · next h =>
      intro d hd
      rcases List.mem_cons.mp hd with h1 | h1
      · subst h1
        exact Nat.mod_lt _ (by decide)
      · exact ih (n / 10) (Nat.div_lt_self (Nat.pos_of_ne_zero h) (by decide)) d h1

lemma digitsLSD_foldr (n : Nat) :
    (digitsLSD n).foldr (fun d acc => 10 * acc + d) 0 = n := by
  induction n using Nat.strong_induction_on with
  | _ n ih =>
    rw [digitsLSD]
    split
    · next h => simp [h]
    · next h =>
      simp only [List.foldr_cons]
      rw [ih (n / 10) (Nat.div_lt_self (Nat.pos_of_ne_zero h) (by decide))]
      omega

lemma digitsMSD_foldl (n : Nat) :
    (digitsMSD n).foldl (fun acc d => 10 * acc + d) 0 = n := by
  unfold digitsMSD
  rw [List.foldl_reverse]
  exact digitsLSD_foldr n

lemma digitsMSD_lt (n : Nat) : ∀ d ∈ digitsMSD n, d < 10 := by
  intro d hd
  exact digitsLSD_lt n d (List.mem_reverse.mp hd)

lemma runPrint_pending (j : PrintJob) (k : Nat) :
    (runPrint j k).pending = (jobFlashes j).drop k := by
  induction k with
  | zero => rfl
  | succ k ih =>
    show ((runPrint j k).pending).tail = _
    rw [ih, List.tail_drop]

lemma printing_number_runPrint (j : PrintJob) (k : Nat) :
    printing_number (runPrint j k) = true ↔ k < (jobFlashes j).length := by
  unfold printing_number
  rw [runPrint_pending]
  simp [List.isEmpty_iff, List.drop_eq_nil_iff]

lemma get_light_level_zero {r : Ramp} (hd : 0 < r.duration) :
    get_light_level r 0 = r.start_level := by
  unfold get_light_level
  rw [if_neg (by omega)]
  simp [Int.zero_tdiv]

lemma get_light_level_end {r : Ramp} {t : Int} (h : r.duration ≤ t) :
    get_light_level r t = r.end_level := by
  unfold get_light_level
  rw [if_pos h]

lemma get_light_level_mid {r : Ramp} {h : Int} (hd : r.duration = 2 * h) (hh : 0 < h) :
    -1 ≤ 2 * get_light_level r h - (r.start_level + r.end_level) ∧
    2 * get_light_level r h - (r.start_level + r.end_level) ≤ 1 := by
  unfold get_light_level
  rw [if_neg (by omega), hd]
  have hb := tdiv_half_bounds (r.end_level - r.start_level) h hh
  omega

/-! ### Claim theorems -/

/-- C1, corrected.  For a ramp commanded by set_light with valid levels and
positive duration, get_light_level reports start at elapsed 0, end at elapsed
duration and at every later elapsed time, and at the midpoint instant
duration/2 — an exact sample instant precisely when the duration is even,
duration = 2h — it reports (start+end)/2 up to one unit of integer rounding.
(The claim as frozen, which asserts the midpoint value at elapsed duration/2
for every positive duration, fails for odd durations; see the
counterexample.) -/
theorem c1_light_ramp_interpolation (current s e d : Int)
    (hs0 : 0 ≤ s) (hs1 : s ≤ MAX_LEVEL) (he0 : 0 ≤ e) (he1 : e ≤ MAX_LEVEL) (hd : 0 < d) :
    get_light_level (set_light current s e d) 0 = s ∧
    (∀ h, d = 2 * h →
      -1 ≤ 2 * get_light_level (set_light current s e d) h - (s + e) ∧
      2 * get_light_level (set_light current s e d) h - (s + e) ≤ 1) ∧
    get_light_level (set_light current s e d) d = e ∧
    (∀ t, d < t → get_light_level (set_light current s e d) t = e) := by
  rw [set_light_eq_of_mem hs0 hs1 he0 he1]
  refine ⟨get_light_level_zero hd, ?_, get_light_level_end le_rfl,
    fun t ht => get_light_level_end (le_of_lt ht)⟩
  intro h hdh
  exact get_light_level_mid hdh (by omega)

/-- C1 counterexample: the valid command set_light(0, 1000, 3) has odd
duration 3; sampled at elapsed = 3/2 = 1 the level is 333, which is 167 away
from the claimed midpoint (0+1000)/2 = 500 — far beyond integer rounding. -/
theorem c1_light_ramp_interpolation_counterexample :
    get_light_level (set_light 0 0 1000 3) ((3 : Int) / 2) = 333 ∧
    ¬(-1 ≤ 2 * get_light_level (set_light 0 0 1000 3) ((3 : Int) / 2) - (0 + 1000) ∧
      2 * get_light_level (set_light 0 0 1000 3) ((3 : Int) / 2) - (0 + 1000) ≤ 1) := by
  decide

/-- C1 witness: set_light(0, 1000, 4) sampled at elapsed 0, 2 (= 4/2), 4
and 9. -/
theorem c1_light_ramp_interpolation_witness :
    get_light_level (set_light 0 0 1000 4) 0 = 0 ∧
    (-1 ≤ 2 * get_light_level (set_light 0 0 1000 4) 2 - (0 + 1000) ∧
      2 * get_light_level (set_light 0 0 1000 4) 2 - (0 + 1000) ≤ 1) ∧
    get_light_level (set_light 0 0 1000 4) 4 = 1000 ∧
    get_light_level (set_light 0 0 1000 4) 9 = 1000 := by
  have h := c1_light_ramp_interpolation 0 0 1000 4 (by decide) (by decide) (by decide)
    (by decide) (by decide)
  exact ⟨h.1, h.2.1 2 (by decide), h.2.2.1, h.2.2.2 9 (by decide)⟩

lemma runThermal_top_cool (temps : List Int)
    (hcool : ∀ x ∈ temps, x < OVERHEAT_TEMPERATURE) :
    runThermal MAX_LEVEL temps = MAX_LEVEL := by
  rw [runThermal_cool temps le_rfl hcool]
  have hlen : (0 : Int) ≤ (temps.length : Int) := by positivity
  unfold MAX_LEVEL OVERHEAT_STEP
  omega

/-- C2, corrected.  In every reachable state — a thermal ceiling produced by
any run of temperature measurements from the full initial ceiling, and a light
level produced by any valid set_light command — get_safe_light_level is at
most get_light_level; and the two are equal whenever every measured
temperature of the run stayed below the overheat threshold.  (The claim as
frozen asserts equality whenever the currently measured temperature is below
the threshold, which fails while the ceiling is still recovering from an
earlier overheat; see the counterexample.) -/
theorem c2_safe_le_light (temps : List Int) (current s e d t : Int)
    (hs0 : 0 ≤ s) (hs1 : s ≤ MAX_LEVEL) (he0 : 0 ≤ e) (he1 : e ≤ MAX_LEVEL) (ht : 0 ≤ t) :
    get_safe_light_level (runThermal MAX_LEVEL temps)
        (get_light_level (set_light current s e d) t)
      ≤ get_light_level (set_light current s e d) t ∧
    ((∀ x ∈ temps, x < OVERHEAT_TEMPERATURE) →
      get_safe_light_level (runThermal MAX_LEVEL temps)
          (get_light_level (set_light current s e d) t)
        = get_light_level (set_light current s e d) t) := by
  rw [set_light_eq_of_mem hs0 hs1 he0 he1]
  refine ⟨get_safe_light_level_le _ _, fun hcool => ?_⟩
  rw [runThermal_top_cool temps hcool]
  have hr := get_light_level_range (r := { start_level := s, end_level := e, duration := d })
    hs0 hs1 he0 he1 ht
  unfold get_safe_light_level
  rw [if_neg (by omega)]

/-- C2 counterexample: after the temperature run [321, 321, 300] from the full
ceiling — two overheating ticks, then a tick measuring 300, below the 320
threshold — the ceiling has only recovered to 999, so for a light commanded to
1000 the safe level is 999 while get_light_level is 1000: the temperature is
below the threshold yet the two values differ. -/
theorem c2_safe_le_light_counterexample :
    (300 : Int) < OVERHEAT_TEMPERATURE ∧
    get_light_level (set_light 0 0 1000 0) 0 = 1000 ∧
    runThermal MAX_LEVEL [321, 321, 300] = 999 ∧
    get_safe_light_level (runThermal MAX_LEVEL [321, 321, 300])
      (get_light_level (set_light 0 0 1000 0) 0) = 999 := by
  decide

/-- C2 witness: the run [300] (never overheated) with the light commanded to
1000: safe and raw levels agree. -/
theorem c2_safe_le_light_witness :
    get_safe_light_level (runThermal MAX_LEVEL [300])
        (get_light_level (set_light 0 0 1000 0) 0)
      ≤ get_light_level (set_light 0 0 1000 0) 0 ∧
    get_safe_light_level (runThermal MAX_LEVEL [300])
        (get_light_level (set_light 0 0 1000 0) 0)
      = get_light_level (set_light 0 0 1000 0) 0 := by
  have h := c2_safe_le_light [300] 0 0 1000 0 0 (by decide) (by decide) (by decide)
    (by decide) (by decide)
  exact ⟨h.1, h.2 (by decide)⟩

/-- C3, confirmed.  From any ceiling within [0, 1000], the ceiling after any
run of measurements stays within [0, 1000]; over a run with every temperature
above the threshold it is the initial ceiling lowered by exactly one
OVERHEAT_STEP per tick, saturating at 0 (hence it decreases monotonically by
the fixed decrement until it reaches 0); and over a run with every temperature
below the threshold it recovers by the same per-tick step, saturating at
MAX_LEVEL. -/
theorem c3_thermal_backoff (ceiling : Int) (temps : List Int)
    (h0 : 0 ≤ ceiling) (h1 : ceiling ≤ MAX_LEVEL) :
    (0 ≤ runThermal ceiling temps ∧ runThermal ceiling temps ≤ MAX_LEVEL) ∧
    ((∀ x ∈ temps, OVERHEAT_TEMPERATURE < x) →
      runThermal ceiling temps = max 0 (ceiling - (temps.length : Int) * OVERHEAT_STEP)) ∧
    ((∀ x ∈ temps, x < OVERHEAT_TEMPERATURE) →
      runThermal ceiling temps = min MAX_LEVEL (ceiling + (temps.length : Int) * OVERHEAT_STEP)) :=
  ⟨runThermal_bounds temps h0 h1, fun hh => runThermal_hot temps h0 hh,
    fun hc => runThermal_cool temps h1 hc⟩

/-- C3 witness: from the full ceiling, two ticks measuring 321 (above the 320
threshold) lower the ceiling by exactly two steps, within bounds. -/
theorem c3_thermal_backoff_witness :
    (0 ≤ runThermal 1000 [321, 321] ∧ runThermal 1000 [321, 321] ≤ MAX_LEVEL) ∧
    runThermal 1000 [321, 321]
      = max 0 (1000 - ((([321, 321] : List Int).length : Int)) * OVERHEAT_STEP) := by
  have h := c3_thermal_backoff 1000 [321, 321] (by decide) (by decide)
  exact ⟨h.1, h.2.1 (by decide)⟩

/-- C4, corrected.  For any two raw charge samples, the definite charge state
is the agreed value when the samples match; when they disagree it is their
bitwise AND (a valid charge state), which is BATTERY only if both samples are
BATTERY — so BATTERY is never returned while plugged in, where at most one of
the two delay-separated samples can spuriously read BATTERY.  (The claim as
frozen says a mismatch returns the second sample, which fails; see the
counterexample.) -/
theorem c4_definite_charge (sample1 sample2 : Nat)
    (hs1 : isChargeState sample1) (hs2 : isChargeState sample2) :
    (sample1 = sample2 → get_definite_charge_state sample1 sample2 = sample1) ∧
    (¬(sample1 = BATTERY ∧ sample2 = BATTERY) →
      get_definite_charge_state sample1 sample2 ≠ BATTERY) ∧
    isChargeState (get_definite_charge_state sample1 sample2) := by
  rcases hs1 with rfl | rfl | rfl <;> rcases hs2 with rfl | rfl | rfl <;>
    exact ⟨by decide, by decide, by decide⟩

/-- C4 counterexample: first sample CHARGING, second sample BATTERY (a
spurious glitch): the result is CHARGING — the first sample, not the second as
the claim states (and rightly not BATTERY). -/
theorem c4_definite_charge_counterexample :
    CHARGING ≠ BATTERY ∧
    get_definite_charge_state CHARGING BATTERY = CHARGING ∧
    get_definite_charge_state CHARGING BATTERY ≠ BATTERY := by
  decide

/-- C4 witness: samples BATTERY then CHARGED: the mismatch resolves to
CHARGED, not BATTERY. -/
theorem c4_definite_charge_witness :
    (BATTERY = CHARGED → get_definite_charge_state BATTERY CHARGED = BATTERY) ∧
    (¬(BATTERY = BATTERY ∧ CHARGED = BATTERY) →
      get_definite_charge_state BATTERY CHARGED ≠ BATTERY) ∧
    isChargeState (get_definite_charge_state BATTERY CHARGED) :=
  c4_definite_charge BATTERY CHARGED (by decide) (by decide)

/-- C5, confirmed.  Starting from any unpressed state, after a press held for
k ticks and then released, button_released reads true and button_held reads k,
the duration of the just-completed press; and that value remains k across any
further run of released ticks, until the next press begins. -/
theorem c5_button_hold_freeze (s0 : ButtonState) (k m : Nat)
    (hp : s0.pressed = false) (hk : 0 < k) :
    button_released (read_button (runButton s0 (List.replicate k true)) false) = true ∧
    button_held (read_button (runButton s0 (List.replicate k true)) false) = k ∧
    button_held (runButton (read_button (runButton s0 (List.replicate k true)) false)
      (List.replicate m false)) = k := by
  obtain ⟨j, rfl⟩ : ∃ j, k = j + 1 := ⟨k - 1, by omega⟩
  have h1 : read_button s0 true = { pressed := true, held := 1, released := false } := by
    simp [read_button, hp]
  have hrun : (runButton s0 (List.replicate (j + 1) true)).held = 1 + j ∧
      (runButton s0 (List.replicate (j + 1) true)).pressed = true := by
    rw [List.replicate_succ, runButton_cons, h1]
    exact runButton_trues rfl j
  rw [read_button_false]
  refine ⟨hrun.2, ?_, ?_⟩
  · show (runButton s0 (List.replicate (j + 1) true)).held = j + 1
    rw [hrun.1]
    omega
  · unfold button_held
    rw [runButton_falses]
    show (runButton s0 (List.replicate (j + 1) true)).held = j + 1
    rw [hrun.1]
    omega

/-- C5 witness: from the initial state, a 3-tick press then release: held
reads 3 and still reads 3 two released ticks later. -/
theorem c5_button_hold_freeze_witness :
    button_released (read_button (runButton initButton (List.replicate 3 true)) false) = true ∧
    button_held (read_button (runButton initButton (List.replicate 3 true)) false) = 3 ∧
    button_held (runButton (read_button (runButton initButton (List.replicate 3 true)) false)
      (List.replicate 2 false)) = 3 :=
  c5_button_hold_freeze initButton 3 2 (by decide) (by decide)

/-- C6, corrected.  Arming any channel with set_led makes its state LED_ON
when on_time > 0 and LED_WAIT otherwise; thereafter, ticking from the arming
time, get_led_state reports LED_ON for elapsed ticks in [0, on_time), LED_WAIT
for [on_time, on_time + wait_time), and LED_OFF from on_time + wait_time on
for every elapsed tick after the first.  (The claim as frozen demands LED_OFF
already at elapsed 0 in the degenerate case on_time = wait_time = 0, where the
armed channel still reads its arming state LED_WAIT until the first tick; see
the counterexample.) -/
theorem c6_led_state_machine (l : Leds) (led : Channel)
    (now on_time wait_time brightness k : Nat) :
    (0 < on_time →
      get_led_state (set_led l led now on_time wait_time brightness) led = .LED_ON) ∧
    (on_time = 0 →
      get_led_state (set_led l led now on_time wait_time brightness) led = .LED_WAIT) ∧
    (k < on_time →
      get_led_state (runLeds (set_led l led now on_time wait_time brightness) now k) led
        = .LED_ON) ∧
    (on_time ≤ k → k < on_time + wait_time →
      get_led_state (runLeds (set_led l led now on_time wait_time brightness) now k) led
        = .LED_WAIT) ∧
    (on_time + wait_time ≤ k → 0 < k →
      get_led_state (runLeds (set_led l led now on_time wait_time brightness) now k) led
        = .LED_OFF) := by
  have hstate : ∀ i, get_led_state (runLeds (set_led l led now on_time wait_time brightness) now i) led
      = ledPhase on_time wait_time i := by
    intro i
    unfold get_led_state
    rw [runLeds_apply, set_led_self, runLed_state]
  refine ⟨?_, ?_, ?_, ?_, ?_⟩
  · intro h
    unfold get_led_state
    rw [set_led_self]
    unfold arm_led
    rw [if_pos h]
  · intro h
    unfold get_led_state
    rw [set_led_self]
    unfold arm_led
    rw [if_neg (by omega)]
  · intro h
    rw [hstate k]
    exact ((ledPhase_spec on_time wait_time k).1).mpr h
  · intro h h2
    rw [hstate k]
    exact ((ledPhase_spec on_time wait_time k).2.1).mpr (Or.inl ⟨h, h2⟩)
  · intro h h2
    rw [hstate k]
    exact ((ledPhase_spec on_time wait_time k).2.2).mpr ⟨h, h2⟩

/-- C6 counterexample: set_led with on_time = 0 and wait_time = 0 leaves the
channel reading LED_WAIT at elapsed 0, although the claimed ON and WAIT
intervals are both empty and the claim then requires LED_OFF at every elapsed
tick including 0. -/
theorem c6_led_state_machine_counterexample :
    get_led_state (runLeds (set_led initLeds Channel.RLED 0 0 0 255) 0 0) Channel.RLED
      = LedState.LED_WAIT ∧
    LedState.LED_WAIT ≠ LedState.LED_OFF := by
  decide

/-- C6 witness: the claim instance set_led(c, 200, 100), armed at tick 7:
LED_ON at elapsed 150, LED_WAIT at 250, LED_OFF at 300. -/
theorem c6_led_state_machine_witness :
    get_led_state (set_led initLeds Channel.GLED 7 200 100 255) Channel.GLED
      = LedState.LED_ON ∧
    get_led_state (runLeds (set_led initLeds Channel.GLED 7 200 100 255) 7 150) Channel.GLED
      = LedState.LED_ON ∧
    get_led_state (runLeds (set_led initLeds Channel.GLED 7 200 100 255) 7 250) Channel.GLED
      = LedState.LED_WAIT ∧
    get_led_state (runLeds (set_led initLeds Channel.GLED 7 200 100 255) 7 300) Channel.GLED
      = LedState.LED_OFF := by
  refine ⟨(c6_led_state_machine initLeds Channel.GLED 7 200 100 255 0).1 (by decide),
    (c6_led_state_machine initLeds Channel.GLED 7 200 100 255 150).2.2.1 (by decide),
    (c6_led_state_machine initLeds Channel.GLED 7 200 100 255 250).2.2.2.1 (by decide) (by decide),
    (c6_led_state_machine initLeds Channel.GLED 7 200 100 255 300).2.2.2.2 (by decide) (by decide)⟩

/-- C7, confirmed.  For every n of magnitude at most 999,999,999 print_number
starts a job whose sign flag holds exactly when n is negative; the job digits
are the decimal digits of the magnitude of n, most significant first (they
recompose to n.natAbs and are each below 10); the rendered flash sequence is
one leading long sign flash exactly when n is negative, followed by each digit
as that many short flashes on its alternating channel; and printing_number
stays true from the start of the job until the last flash is emitted, then
reads false.  Magnitudes above 999,999,999 are not printable. -/
theorem c7_print_number_encoding (n : Int) :
    (n.natAbs ≤ PRINT_LIMIT →
      ∃ j, print_number n = some j ∧
        (j.negative = true ↔ n < 0) ∧
        j.digits.foldl (fun acc d => 10 * acc + d) 0 = n.natAbs ∧
        (∀ d ∈ j.digits, d < 10) ∧
        jobFlashes j = (if n < 0 then [Flash.long] else []) ++
          (j.digits.enum.flatMap fun p =>
            List.replicate p.2 (Flash.short (channelFor p.1))) ∧
        (∀ k, printing_number (runPrint j k) = true ↔ k < (jobFlashes j).length)) ∧
    (PRINT_LIMIT < n.natAbs → print_number n = none) := by
  constructor
  · intro hle
    refine ⟨{ negative := decide (n < 0), digits := digitsMSD n.natAbs }, ?_, ?_,
      digitsMSD_foldl n.natAbs, digitsMSD_lt n.natAbs, ?_, ?_⟩
    · unfold print_number
      rw [if_pos hle]
    · simp
    · by_cases hn : n < 0 <;> simp [jobFlashes, hn]
    · intro k
      exact printing_number_runPrint _ k
  · intro hgt
    unfold print_number
    rw [if_neg (by omega)]

/-- C7 witness: the claim instance n = -205 — the job exists with the claimed
properties, its digits are 2, 0, 5, its flash sequence is the long sign flash
followed by 2 short flashes for the first digit, none for the 0, and 5 for the
last, and one magnitude above the limit is rejected. -/
theorem c7_print_number_encoding_witness :
    (∃ j, print_number (-205 : Int) = some j ∧
      (j.negative = true ↔ (-205 : Int) < 0) ∧
      j.digits.foldl (fun acc d => 10 * acc + d) 0 = (-205 : Int).natAbs ∧
      (∀ d ∈ j.digits, d < 10) ∧
      jobFlashes j = (if (-205 : Int) < 0 then [Flash.long] else []) ++
        (j.digits.enum.flatMap fun p =>
          List.replicate p.2 (Flash.short (channelFor p.1))) ∧
      (∀ k, printing_number (runPrint j k) = true ↔ k < (jobFlashes j).length)) ∧
    print_number (-205 : Int)
      = some { negative := true, digits := [2, 0, 5] } ∧
    jobFlashes { negative := true, digits := [2, 0, 5] }
      = [Flash.long, Flash.short Channel.RLED, Flash.short Channel.RLED,
          Flash.short Channel.RLED, Flash.short Channel.RLED, Flash.short Channel.RLED,
          Flash.short Channel.RLED, Flash.short Channel.RLED] ∧
    print_number (1000000000 : Int) = none := by
  refine ⟨(c7_print_number_encoding (-205)).1 (by decide), ?_, by decide,
    (c7_print_number_encoding 1000000000).2 (by decide)⟩
  simp [print_number, PRINT_LIMIT, digitsMSD, digitsLSD]

/-- C8, confirmed.  Any set_light call with a non-sentinel start simply clamps
both endpoints into [0, MAX_LEVEL] instead of rejecting the command, so both
stored endpoints are in range; and the value handed to the physical driver —
get_safe_light_level of the ramp level under any reachable thermal ceiling —
is always within [0, MAX_LEVEL]. -/
theorem c8_set_light_clamping (current s e d : Int) (hs : s ≠ CURRENT_LEVEL) :
    (set_light current s e d).start_level = clampLevel s ∧
    (set_light current s e d).end_level = clampLevel e ∧
    (0 ≤ (set_light current s e d).start_level ∧
      (set_light current s e d).start_level ≤ MAX_LEVEL) ∧
    (0 ≤ (set_light current s e d).end_level ∧
      (set_light current s e d).end_level ≤ MAX_LEVEL) ∧
    (∀ t temps, 0 ≤ t →
      0 ≤ get_safe_light_level (runThermal MAX_LEVEL temps)
          (get_light_level (set_light current s e d) t) ∧
      get_safe_light_level (runThermal MAX_LEVEL temps)
          (get_light_level (set_light current s e d) t) ≤ MAX_LEVEL) := by
  have hstart : (set_light current s e d).start_level = clampLevel s := by
    unfold set_light
    dsimp
    rw [if_neg hs]
  have hend : (set_light current s e d).end_level = clampLevel e := rfl
  refine ⟨hstart, hend, ?_, ?_, ?_⟩
  · rw [hstart]
    exact clampLevel_bounds s
  · rw [hend]
    exact clampLevel_bounds e
  · intro t temps ht
    have hr := get_light_level_range (r := set_light current s e d)
      (by rw [hstart]; exact (clampLevel_bounds s).1)
      (by rw [hstart]; exact (clampLevel_bounds s).2)
      (by rw [hend]; exact (clampLevel_bounds e).1)
      (by rw [hend]; exact (clampLevel_bounds e).2) ht
    have hc := runThermal_bounds (c := MAX_LEVEL) temps (by unfold MAX_LEVEL; omega) le_rfl
    unfold get_safe_light_level
    split <;> omega

/-- C8 witness: set_light(2000, -5, 100) — start 2000 above range, end -5
below range — is accepted with endpoints clamped to 1000 and 0, and the driver
value at elapsed 7 under the ceiling reached after run [321] is in range. -/
theorem c8_set_light_clamping_witness :
    (set_light 0 2000 (-5) 100).start_level = clampLevel 2000 ∧
    (set_light 0 2000 (-5) 100).end_level = clampLevel (-5) ∧
    (0 ≤ (set_light 0 2000 (-5) 100).start_level ∧
      (set_light 0 2000 (-5) 100).start_level ≤ MAX_LEVEL) ∧
    (0 ≤ (set_light 0 2000 (-5) 100).end_level ∧
      (set_light 0 2000 (-5) 100).end_level ≤ MAX_LEVEL) ∧
    (0 ≤ get_safe_light_level (runThermal MAX_LEVEL [321])
        (get_light_level (set_light 0 2000 (-5) 100) 7) ∧
      get_safe_light_level (runThermal MAX_LEVEL [321])
        (get_light_level (set_light 0 2000 (-5) 100) 7) ≤ MAX_LEVEL) := by
  have h := c8_set_light_clamping 0 2000 (-5) 100 (by decide)
  exact ⟨h.1, h.2.1, h.2.2.1, h.2.2.2.1, h.2.2.2.2 7 [321] (by decide)⟩

/-- C10, confirmed.  The CURRENT_LEVEL sentinel equals -1, which lies outside
the valid commanded range [0, MAX_LEVEL]; hence no valid level equals the
sentinel, set_light stores a valid start level verbatim, and set_light with
the sentinel start stores the ramp value currently being produced instead —
the two interpretations never collide. -/
theorem c10_current_level_sentinel (lvl current e d : Int)
    (h0 : 0 ≤ lvl) (h1 : lvl ≤ MAX_LEVEL) :
    CURRENT_LEVEL = -1 ∧
    ¬(0 ≤ CURRENT_LEVEL ∧ CURRENT_LEVEL ≤ MAX_LEVEL) ∧
    lvl ≠ CURRENT_LEVEL ∧
    (set_light current lvl e d).start_level = lvl ∧
    (set_light current CURRENT_LEVEL e d).start_level = current := by
  refine ⟨rfl, by decide, by unfold CURRENT_LEVEL; omega, ?_, ?_⟩
  · unfold set_light
    dsimp
    rw [if_neg (by unfold CURRENT_LEVEL; omega), clampLevel_eq_of_mem h0 h1]
  · unfold set_light
    dsimp

/-- C10 witness: the valid level 500 is stored verbatim as a start level,
while a sentinel start yields the current ramp value 123. -/
theorem c10_current_level_sentinel_witness :
    (500 : Int) ≠ CURRENT_LEVEL ∧
    (set_light 123 500 0 10).start_level = 500 ∧
    (set_light 123 CURRENT_LEVEL 0 10).start_level = 123 := by
  have h := c10_current_level_sentinel 500 123 0 10 (by decide) (by decide)
  exact ⟨h.2.2.1, h.2.2.2.1, h.2.2.2.2⟩

end hexbright
